import Mathlib

/-!
Verification of the `send_cells` crate's thread-affinity cell (`src/send_cell.rs`)
against its specification, in a shallow embedding.

Modelling conventions:
- A thread identity is an opaque comparable value; we embed it as `Nat`.
  The current thread's identity (`crate::sys::thread::current().id()` in the
  source) is passed to each operation as an explicit `current` argument.
- A Rust panic is modelled as the error branch of `Except RustPanic`.
  An `assert_eq!` failure on a thread-identity comparison carries the custom
  format message when the source supplies one (`some msg`) and `none` when the
  source's `assert_eq!` has no custom message; an `Option::expect` failure
  carries its message.
- `std::mem::needs_drop::<T>()` is a type-level fact about `T`; it is passed
  as an explicit Boolean `needsDrop` argument, and `std::any::type_name::<T>()`
  as an explicit `typeName : String` argument.
- A future of state type `T` producing `A` is modelled as a state-transition
  function `step : T → Poll A × T`; Rust's `Future::poll` on the wrapped value
  is one application of `step` to the stored state.
- Functions that take `self` by value in Rust and whose emptied shell is then
  dropped by the checked `Drop` impl (`into_inner`, `into_unchecked_inner`)
  include that shell drop in their observable behaviour, because Rust runs
  `Drop::drop` on the local `self` when the function returns.
-/

/-- Modelled from the spec: `crate::sys::thread` is not under src/; section 4.1
says the thread-identity facility returns a stable, comparable identity for the
current thread. We embed identities as natural numbers. -/
abbrev ThreadId := Nat

/-- Outcome of a Rust panic, as observed by a caller. -/
inductive RustPanic where
  | affinityViolation (message : Option String)
  | expectFailed (message : String)
deriving DecidableEq, Repr

/-- Modelled from the spec: `crate::unsafe_send_cell` is not under src/;
section 4.2 says UncheckedAffinityCell is a transparent exclusive owner of T
with zero added state and no checks on any operation. -/
structure UnsafeSendCell (T : Type) where
  value : T
deriving DecidableEq, Repr

/-- Modelled from the spec: `new_unchecked(value)` stores the value, no checks. -/
def UnsafeSendCell.new_unchecked {T : Type} (t : T) : UnsafeSendCell T := ⟨t⟩

/-- Modelled from the spec: `get()` is a pass-through read with no checks. -/
def UnsafeSendCell.get {T : Type} (c : UnsafeSendCell T) : T := c.value

/-- Modelled from the spec: `get_mut()` is a pass-through mutable borrow with no
checks; we model the read it grants. -/
def UnsafeSendCell.get_mut {T : Type} (c : UnsafeSendCell T) : T := c.value

/-- Modelled from the spec: `into_inner()` consumes the cell and returns T. -/
def UnsafeSendCell.into_inner {T : Type} (c : UnsafeSendCell T) : T := c.value

/-- `SendCell<T>` from src/send_cell.rs: an optional unchecked cell plus the
thread identity captured at construction. -/
structure SendCell (T : Type) where
  inner : Option (UnsafeSendCell T)
  thread_id : ThreadId
deriving DecidableEq, Repr

/-- `SendCell::new`: wraps the value and records the current thread's identity. -/
def SendCell.new {T : Type} (current : ThreadId) (t : T) : SendCell T :=
  { inner := some (UnsafeSendCell.new_unchecked t), thread_id := current }

/-- `SendCell::get_unchecked`: `self.inner.as_ref().expect("gone").get()`. -/
def SendCell.get_unchecked {T : Type} (c : SendCell T) : Except RustPanic T :=
  match c.inner with
  | some u => .ok u.get
  | none => .error (.expectFailed "gone")

/-- `SendCell::get`: asserts the stored identity equals the current one, with the
message naming the wrapped type, then delegates to `get_unchecked`. -/
def SendCell.get {T : Type} (typeName : String) (current : ThreadId)
    (c : SendCell T) : Except RustPanic T :=
  if c.thread_id = current then c.get_unchecked
  else .error (.affinityViolation
    (some ("Access SendCell<" ++ typeName ++ "> from incorrect thread")))

/-- `SendCell::get_unchecked_mut`: `self.inner.as_mut().expect("gone").get_mut()`. -/
def SendCell.get_unchecked_mut {T : Type} (c : SendCell T) : Except RustPanic T :=
  match c.inner with
  | some u => .ok u.get_mut
  | none => .error (.expectFailed "gone")

/-- `SendCell::get_mut`: same assertion and message as `get`, then delegates to
`get_unchecked_mut`. -/
def SendCell.get_mut {T : Type} (typeName : String) (current : ThreadId)
    (c : SendCell T) : Except RustPanic T :=
  if c.thread_id = current then c.get_unchecked_mut
  else .error (.affinityViolation
    (some ("Access SendCell<" ++ typeName ++ "> from incorrect thread")))

/-- `Drop for SendCell`: if `needs_drop::<T>()`, assert the stored identity
equals the current one with a message naming the wrapped type; otherwise the
check is skipped entirely. The payload is never inspected. -/
def SendCell.drop {T : Type} (typeName : String) (needsDrop : Bool)
    (current : ThreadId) (c : SendCell T) : Except RustPanic Unit :=
  if needsDrop then
    if c.thread_id = current then .ok ()
    else .error (.affinityViolation
      (some ("Drop SendCell<" ++ typeName ++ "> from incorrect thread")))
  else .ok ()

/-- `SendCell::into_unchecked_inner`: `self.inner.take().expect("gone").into_inner()`.
The function takes `mut self` by value; after `take()` the shell (with
`inner = none`) is dropped by the checked `Drop` impl when the function
returns, so that drop is part of the call's observable behaviour: if it
panics, the call panics instead of returning the value. -/
def SendCell.into_unchecked_inner {T : Type} (typeName : String)
    (needsDrop : Bool) (current : ThreadId) (c : SendCell T) :
    Except RustPanic T :=
  match c.inner with
  | none => .error (.expectFailed "gone")
  | some u =>
    match SendCell.drop typeName needsDrop current
        ({ inner := none, thread_id := c.thread_id } : SendCell T) with
    | .ok _ => .ok u.into_inner
    | .error e => .error e

/-- `SendCell::into_inner`: `assert_eq!(self.thread_id, current)` (no custom
message in the source), then delegates to `into_unchecked_inner`. -/
def SendCell.into_inner {T : Type} (typeName : String) (needsDrop : Bool)
    (current : ThreadId) (c : SendCell T) : Except RustPanic T :=
  if c.thread_id = current then
    c.into_unchecked_inner typeName needsDrop current
  else .error (.affinityViolation none)

/-- `SendCell::preserving_cell_thread`: builds a new cell around `new` carrying
the original's stored identity; the current thread's identity is never read
(the definition takes no `current` argument, matching the source body). -/
def SendCell.preserving_cell_thread {T U : Type} (c : SendCell T) (new : U) :
    SendCell U :=
  { inner := some (UnsafeSendCell.new_unchecked new), thread_id := c.thread_id }

/-- `SendCell::copying` (requires `T : Copy`):
`self.preserving_cell_thread(*self.get_unchecked())`. -/
def SendCell.copying {T : Type} (c : SendCell T) : Except RustPanic (SendCell T) :=
  match c.get_unchecked with
  | .ok v => .ok (c.preserving_cell_thread v)
  | .error e => .error e

/-- Result of one poll of a future: pending, or ready with the output. -/
inductive Poll (A : Type) where
  | pending
  | ready (value : A)
deriving DecidableEq, Repr

/-- `SendFuture<T>` from src/send_cell.rs: the wrapped future (no longer
optional) plus the thread identity inherited from the consumed `SendCell`. -/
structure SendFuture (T : Type) where
  inner : UnsafeSendCell T
  thread_id : ThreadId
deriving DecidableEq, Repr

/-- `SendCell::into_future`: `self.inner.take().expect("inner value missing")`
moved into a `SendFuture` with the same stored identity. The emptied shell
(`inner = none`) left behind by `take()` is returned explicitly; Rust then
drops it through the checked `Drop` impl (modelled by `SendCell.drop`). -/
def SendCell.into_future {T : Type} (c : SendCell T) :
    Except RustPanic (SendFuture T × SendCell T) :=
  match c.inner with
  | some u => .ok ({ inner := u, thread_id := c.thread_id },
      { inner := none, thread_id := c.thread_id })
  | none => .error (.expectFailed "inner value missing")

/-- `Future for SendFuture::poll`: asserts the stored identity equals the
current one with a message naming the wrapped type; on match, delegates to the
wrapped future's own poll (one application of `step` to the stored state) and
returns its outcome unchanged, storing the advanced state back. -/
def SendFuture.poll {T A : Type} (typeName : String) (step : T → Poll A × T)
    (current : ThreadId) (f : SendFuture T) :
    Except RustPanic (Poll A × SendFuture T) :=
  if f.thread_id = current then
    let r := step f.inner.get_mut
    .ok (r.1, { inner := UnsafeSendCell.new_unchecked r.2, thread_id := f.thread_id })
  else .error (.affinityViolation
    (some ("SendFuture<" ++ typeName ++ "> polled from incorrect thread")))

/-- Destruction of a `SendFuture`: the source declares no `Drop` impl for
`SendFuture` (src/send_cell.rs lines 553-584 define only the struct, the
`Send` impl and `poll`), so dropping one only runs the field drop of the inner
`UnsafeSendCell`, which performs no checks (spec section 4.2). -/
def SendFuture.drop {T : Type} (_current : ThreadId) (_f : SendFuture T) :
    Except RustPanic Unit := .ok ()

/-- Polling the raw wrapped future `n` times from state `t`: the list of
outcomes and the final state. -/
def pollSeq {T A : Type} (step : T → Poll A × T) : Nat → T → List (Poll A) × T
  | 0, t => ([], t)
  | Nat.succ n, t =>
    let r := step t
    let rest := pollSeq step n r.2
    (r.1 :: rest.1, rest.2)

/-- Polling a `SendFuture` `n` times on thread `current`: the list of outcomes
and the final future, or the first panic. -/
def SendFuture.pollSeq {T A : Type} (typeName : String) (step : T → Poll A × T)
    (current : ThreadId) : Nat → SendFuture T →
    Except RustPanic (List (Poll A) × SendFuture T)
  | 0, f => .ok ([], f)
  | Nat.succ n, f =>
    match f.poll typeName step current with
    | .error e => .error e
    | .ok (r, f2) =>
      match SendFuture.pollSeq typeName step current n f2 with
      | .error e => .error e
      | .ok (rs, f3) => .ok (r :: rs, f3)

/-- `Debug for SendCell`: `self.get().fmt(f)`; the wrapped type's formatter is
passed as `fmtT`. -/
def SendCell.fmt {T : Type} (fmtT : T → String) (typeName : String)
    (current : ThreadId) (c : SendCell T) : Except RustPanic String :=
  (c.get typeName current).map fmtT

/-- `AsRef for SendCell`: `self.get()`. -/
def SendCell.as_ref {T : Type} (typeName : String) (current : ThreadId)
    (c : SendCell T) : Except RustPanic T :=
  c.get typeName current

/-- `AsMut for SendCell`: `self.get_mut()`. -/
def SendCell.as_mut {T : Type} (typeName : String) (current : ThreadId)
    (c : SendCell T) : Except RustPanic T :=
  c.get_mut typeName current

/-- `Deref for SendCell`: `self.get()`. -/
def SendCell.deref {T : Type} (typeName : String) (current : ThreadId)
    (c : SendCell T) : Except RustPanic T :=
  c.get typeName current

/-- `DerefMut for SendCell`: `self.get_mut()`. -/
def SendCell.deref_mut {T : Type} (typeName : String) (current : ThreadId)
    (c : SendCell T) : Except RustPanic T :=
  c.get_mut typeName current

/-- Claim C1: a `SendCell` created by `new` and read through the checked
accessors `get` or `get_mut` on its creation thread returns the wrapped value;
from any other thread both checked accessors fail with an affinity violation
whose message names the wrapped type. -/
theorem c1_checked_access (T : Type) (typeName : String) (creator other : ThreadId)
    (v : T) (hne : creator ≠ other) :
    SendCell.get typeName creator (SendCell.new creator v) = .ok v ∧
    SendCell.get_mut typeName creator (SendCell.new creator v) = .ok v ∧
    SendCell.get typeName other (SendCell.new creator v)
      = .error (.affinityViolation
          (some ("Access SendCell<" ++ typeName ++ "> from incorrect thread"))) ∧
    SendCell.get_mut typeName other (SendCell.new creator v)
      = .error (.affinityViolation
          (some ("Access SendCell<" ++ typeName ++ "> from incorrect thread"))) := by
  refine ⟨?_, ?_, ?_, ?_⟩ <;>
    simp [SendCell.get, SendCell.get_mut, SendCell.new, SendCell.get_unchecked,
      SendCell.get_unchecked_mut, UnsafeSendCell.new_unchecked, UnsafeSendCell.get,
      UnsafeSendCell.get_mut, hne]

/-- Witness for C1 at concrete inputs. -/
theorem c1_checked_access_witness :
    SendCell.get "i32" 0 (SendCell.new 0 (42 : Nat)) = .ok 42 ∧
    SendCell.get_mut "i32" 0 (SendCell.new 0 (42 : Nat)) = .ok 42 ∧
    SendCell.get "i32" 1 (SendCell.new 0 (42 : Nat))
      = .error (.affinityViolation
          (some ("Access SendCell<" ++ "i32" ++ "> from incorrect thread"))) ∧
    SendCell.get_mut "i32" 1 (SendCell.new 0 (42 : Nat))
      = .error (.affinityViolation
          (some ("Access SendCell<" ++ "i32" ++ "> from incorrect thread"))) :=
  c1_checked_access Nat "i32" 0 1 42 (by decide)

/-- Claim C2: polling a `SendFuture` on a mismatched thread fails with an
affinity violation whose value does not depend on the wrapped computation or
its state (the inner poll is never entered); on the matching thread, poll
delegates to the wrapped computation's step and returns its outcome unchanged. -/
theorem c2_send_future_poll (T A : Type) (typeName : String)
    (step : T → Poll A × T) (current : ThreadId) (f : SendFuture T) :
    (f.thread_id ≠ current →
      SendFuture.poll typeName step current f
        = .error (.affinityViolation
            (some ("SendFuture<" ++ typeName ++ "> polled from incorrect thread")))) ∧
    (f.thread_id = current →
      SendFuture.poll typeName step current f
        = .ok ((step f.inner.value).1,
            { inner := ⟨(step f.inner.value).2⟩, thread_id := f.thread_id })) := by
  constructor
  · intro h
    simp [SendFuture.poll, h]
  · intro h
    simp [SendFuture.poll, h, UnsafeSendCell.get_mut, UnsafeSendCell.new_unchecked]

/-- Witness for C2 at concrete inputs. -/
theorem c2_send_future_poll_witness :
    SendFuture.poll "F" (fun n : Nat => (Poll.ready n, n + 1)) 1 ⟨⟨5⟩, 0⟩
      = .error (.affinityViolation
          (some ("SendFuture<" ++ "F" ++ "> polled from incorrect thread"))) ∧
    SendFuture.poll "F" (fun n : Nat => (Poll.ready n, n + 1)) 0 ⟨⟨5⟩, 0⟩
      = .ok (Poll.ready 5, ⟨⟨6⟩, 0⟩) :=
  ⟨(c2_send_future_poll Nat Nat "F" (fun n => (Poll.ready n, n + 1)) 1 ⟨⟨5⟩, 0⟩).1
      (by decide),
   (c2_send_future_poll Nat Nat "F" (fun n => (Poll.ready n, n + 1)) 0 ⟨⟨5⟩, 0⟩).2 rfl⟩

/-- Claim C3: `Drop for SendCell` asserts the thread identity exactly when the
payload type needs dropping: with `needsDrop = true` a mismatched thread fails
with an affinity violation naming the wrapped type, and the check never
inspects the payload (the result is unchanged under any payload, so it fails
before any teardown could run); with `needsDrop = false` the drop never fails
on any thread. -/
theorem c3_drop_check (T : Type) (typeName : String) (current : ThreadId)
    (c : SendCell T) :
    (c.thread_id ≠ current →
      SendCell.drop typeName true current c
        = .error (.affinityViolation
            (some ("Drop SendCell<" ++ typeName ++ "> from incorrect thread")))) ∧
    (∀ i : Option (UnsafeSendCell T),
      SendCell.drop typeName true current { inner := i, thread_id := c.thread_id }
        = SendCell.drop typeName true current c) ∧
    SendCell.drop typeName false current c = .ok () := by
  refine ⟨fun h => by simp [SendCell.drop, h], fun i => by simp [SendCell.drop],
    by simp [SendCell.drop]⟩

/-- Witness for C3 at concrete inputs. -/
theorem c3_drop_check_witness :
    (SendCell.drop "String" true 1 (SendCell.new 0 (7 : Nat))
      = .error (.affinityViolation
          (some ("Drop SendCell<" ++ "String" ++ "> from incorrect thread")))) ∧
    (∀ i : Option (UnsafeSendCell Nat),
      SendCell.drop "String" true 1 { inner := i, thread_id := 0 }
        = SendCell.drop "String" true 1 (SendCell.new 0 (7 : Nat))) ∧
    SendCell.drop "String" false 1 (SendCell.new 0 (7 : Nat)) = .ok () :=
  ⟨(c3_drop_check Nat "String" 1 (SendCell.new 0 7)).1 (by decide),
   (c3_drop_check Nat "String" 1 (SendCell.new 0 7)).2.1,
   (c3_drop_check Nat "String" 1 (SendCell.new 0 7)).2.2⟩

/-- Claim C4: round trip: `into_inner` applied on the creation thread to
`SendCell.new current v` yields `v` (for any payload type, whether or not it
needs dropping). -/
theorem c4_round_trip (T : Type) (typeName : String) (needsDrop : Bool)
    (current : ThreadId) (v : T) :
    SendCell.into_inner typeName needsDrop current (SendCell.new current v)
      = .ok v := by
  cases needsDrop <;>
    simp [SendCell.into_inner, SendCell.new, SendCell.into_unchecked_inner,
      SendCell.drop, UnsafeSendCell.new_unchecked, UnsafeSendCell.into_inner]

/-- Polling a `SendFuture` repeatedly on the thread whose identity it stores
reproduces exactly the raw future's outcome sequence and final state. -/
theorem sendFuture_pollSeq_on_origin {T A : Type} (typeName : String)
    (step : T → Poll A × T) (current : ThreadId) (n : Nat) (t : T) :
    SendFuture.pollSeq typeName step current n ⟨⟨t⟩, current⟩
      = .ok ((pollSeq step n t).1, ⟨⟨(pollSeq step n t).2⟩, current⟩) := by
  induction n generalizing t with
  | zero => simp [SendFuture.pollSeq, pollSeq]
  | succ n ih =>
    simp [SendFuture.pollSeq, pollSeq, SendFuture.poll, UnsafeSendCell.get_mut,
      UnsafeSendCell.new_unchecked, ih]

/-- Claim C5: converting `SendCell.new current v` with `into_future` yields a
`SendFuture` carrying `v` and the stored identity (plus the emptied shell), and
polling that future any finite number of times on the creation thread produces
exactly the outcome sequence of polling the unwrapped future directly. -/
theorem c5_poll_sequence (T A : Type) (typeName : String) (step : T → Poll A × T)
    (current : ThreadId) (v : T) (n : Nat) :
    SendCell.into_future (SendCell.new current v)
      = .ok (⟨⟨v⟩, current⟩, ⟨none, current⟩) ∧
    SendFuture.pollSeq typeName step current n ⟨⟨v⟩, current⟩
      = .ok ((pollSeq step n v).1, ⟨⟨(pollSeq step n v).2⟩, current⟩) :=
  ⟨rfl, sendFuture_pollSeq_on_origin typeName step current n v⟩

/-- Counterexample to claim C6 as stated: calling `into_unchecked_inner` from a
thread other than the creation thread, with a payload type that needs dropping,
raises an affinity violation (from the checked `Drop` of the emptied shell run
when the consuming call returns) instead of returning the wrapped value. -/
theorem c6_counterexample :
    SendCell.into_unchecked_inner "String" true 1 (SendCell.new 0 "hello")
      = .error (.affinityViolation
          (some ("Drop SendCell<" ++ "String" ++ "> from incorrect thread"))) := rfl

/-- Claim C6 (amended): `into_unchecked_inner` performs no thread-identity
assertion of its own: for a trivially-destructible payload it returns the
wrapped value from any thread without an affinity violation, and for any
payload it returns the wrapped value on the creation thread; the only failure
a foreign thread can observe comes from the emptied shell's checked `Drop`,
not from an access assertion. In contrast, `into_inner` asserts identity
before consuming and fails on a foreign thread even when the payload is
trivially destructible. -/
theorem c6_into_unchecked_inner (T : Type) (typeName : String)
    (current : ThreadId) (c : SendCell T) (u : UnsafeSendCell T)
    (h : c.inner = some u) :
    SendCell.into_unchecked_inner typeName false current c = .ok u.value ∧
    (c.thread_id = current → ∀ nd : Bool,
      SendCell.into_unchecked_inner typeName nd current c = .ok u.value) ∧
    (c.thread_id ≠ current →
      SendCell.into_inner typeName false current c
        = .error (.affinityViolation none)) := by
  refine ⟨?_, ?_, ?_⟩
  · simp [SendCell.into_unchecked_inner, h, SendCell.drop, UnsafeSendCell.into_inner]
  · intro hc nd
    cases nd <;>
      simp [SendCell.into_unchecked_inner, h, SendCell.drop, hc,
        UnsafeSendCell.into_inner]
  · intro hc
    simp [SendCell.into_inner, hc]

/-- Witness for the amended C6 at concrete inputs. -/
theorem c6_into_unchecked_inner_witness :
    SendCell.into_unchecked_inner "i32" false 1 (SendCell.new 0 (9 : Nat)) = .ok 9 ∧
    SendCell.into_unchecked_inner "i32" true 0 (SendCell.new 0 (9 : Nat)) = .ok 9 ∧
    SendCell.into_inner "i32" false 1 (SendCell.new 0 (9 : Nat))
      = .error (.affinityViolation none) :=
  ⟨(c6_into_unchecked_inner Nat "i32" 1 (SendCell.new 0 9) ⟨9⟩ rfl).1,
   (c6_into_unchecked_inner Nat "i32" 0 (SendCell.new 0 9) ⟨9⟩ rfl).2.1 rfl true,
   (c6_into_unchecked_inner Nat "i32" 1 (SendCell.new 0 9) ⟨9⟩ rfl).2.2 (by decide)⟩

/-- Counterexample to claim C7 as stated: dropping a `SendFuture` created on
thread 0 from thread 1 raises no affinity violation, because the source
declares no `Drop` impl for `SendFuture`. -/
theorem c7_counterexample :
    SendFuture.drop 1 (⟨⟨(42 : Nat)⟩, 0⟩ : SendFuture Nat) = .ok () := rfl

/-- Claim C7 (amended): destroying a `SendFuture` performs no thread-identity
check at all: on every thread, matching or not, its drop succeeds and never
raises an affinity violation. Satisfying the drop-thread invariant for
resources owned by the wrapped computation on early destruction is the
caller's obligation; the code does not enforce it. -/
theorem c7_send_future_drop (T : Type) (current : ThreadId) (f : SendFuture T) :
    SendFuture.drop current f = .ok () ∧
    ∀ e : RustPanic, SendFuture.drop current f ≠ .error e :=
  ⟨rfl, fun e h => by simp [SendFuture.drop] at h⟩

/-- Claim C8: `preserving_cell_thread` builds a cell whose stored identity is
the original's stored identity (no `current` thread is read: the operation
takes none), and `copying` is built on it from the unchecked read, so original
and copy read equal values on the creation thread and each drops there without
failing its own-thread check, for any payload drop requirement. -/
theorem c8_preserving_and_copying (T U : Type) (typeName : String)
    (c : SendCell T) (u : UnsafeSendCell T) (newVal : U)
    (h : c.inner = some u) :
    (c.preserving_cell_thread newVal).thread_id = c.thread_id ∧
    (c.preserving_cell_thread newVal).inner = some ⟨newVal⟩ ∧
    SendCell.copying c = .ok (c.preserving_cell_thread u.value) ∧
    SendCell.get typeName c.thread_id c = .ok u.value ∧
    SendCell.get typeName c.thread_id (c.preserving_cell_thread u.value)
      = .ok u.value ∧
    (∀ nd : Bool, SendCell.drop typeName nd c.thread_id c = .ok () ∧
      SendCell.drop typeName nd c.thread_id (c.preserving_cell_thread u.value)
        = .ok ()) := by
  refine ⟨rfl, rfl, ?_, ?_, ?_, ?_⟩
  · simp [SendCell.copying, SendCell.get_unchecked, h, UnsafeSendCell.get]
  · simp [SendCell.get, SendCell.get_unchecked, h, UnsafeSendCell.get]
  · simp [SendCell.get, SendCell.preserving_cell_thread, SendCell.get_unchecked,
      UnsafeSendCell.new_unchecked, UnsafeSendCell.get]
  · intro nd
    cases nd <;> simp [SendCell.drop, SendCell.preserving_cell_thread]

/-- Witness for C8 at concrete inputs. -/
theorem c8_preserving_and_copying_witness :
    (SendCell.preserving_cell_thread (SendCell.new 0 (5 : Nat)) "x").thread_id = 0 ∧
    (SendCell.preserving_cell_thread (SendCell.new 0 (5 : Nat)) "x").inner
      = some ⟨"x"⟩ ∧
    SendCell.copying (SendCell.new 0 (5 : Nat))
      = .ok (SendCell.preserving_cell_thread (SendCell.new 0 (5 : Nat)) 5) ∧
    SendCell.get "i32" 0 (SendCell.new 0 (5 : Nat)) = .ok 5 ∧
    SendCell.get "i32" 0 (SendCell.preserving_cell_thread (SendCell.new 0 (5 : Nat)) 5)
      = .ok 5 ∧
    (∀ nd : Bool, SendCell.drop "i32" nd 0 (SendCell.new 0 (5 : Nat)) = .ok () ∧
      SendCell.drop "i32" nd 0
          (SendCell.preserving_cell_thread (SendCell.new 0 (5 : Nat)) 5)
        = .ok ()) :=
  c8_preserving_and_copying Nat String "i32" (SendCell.new 0 5) ⟨5⟩ "x" rfl

/-- Claim C9: every delegated operation (`Debug::fmt`, `AsRef::as_ref`,
`AsMut::as_mut`, `Deref::deref`, `DerefMut::deref_mut`) equals the checked
accessor it routes through, and therefore on a mismatched thread each fails
with the checked accessor's affinity violation naming the wrapped type. -/
theorem c9_delegation (T : Type) (fmtT : T → String) (typeName : String)
    (current : ThreadId) (c : SendCell T) :
    SendCell.as_ref typeName current c = SendCell.get typeName current c ∧
    SendCell.deref typeName current c = SendCell.get typeName current c ∧
    SendCell.as_mut typeName current c = SendCell.get_mut typeName current c ∧
    SendCell.deref_mut typeName current c = SendCell.get_mut typeName current c ∧
    SendCell.fmt fmtT typeName current c
      = (SendCell.get typeName current c).map fmtT ∧
    (c.thread_id ≠ current →
      SendCell.as_ref typeName current c
        = .error (.affinityViolation
            (some ("Access SendCell<" ++ typeName ++ "> from incorrect thread"))) ∧
      SendCell.deref typeName current c
        = .error (.affinityViolation
            (some ("Access SendCell<" ++ typeName ++ "> from incorrect thread"))) ∧
      SendCell.as_mut typeName current c
        = .error (.affinityViolation
            (some ("Access SendCell<" ++ typeName ++ "> from incorrect thread"))) ∧
      SendCell.deref_mut typeName current c
        = .error (.affinityViolation
            (some ("Access SendCell<" ++ typeName ++ "> from incorrect thread"))) ∧
      SendCell.fmt fmtT typeName current c
        = .error (.affinityViolation
            (some ("Access SendCell<" ++ typeName ++ "> from incorrect thread")))) := by
  refine ⟨rfl, rfl, rfl, rfl, rfl, fun h => ?_⟩
  refine ⟨?_, ?_, ?_, ?_, ?_⟩ <;>
    simp [SendCell.as_ref, SendCell.deref, SendCell.as_mut, SendCell.deref_mut,
      SendCell.fmt, SendCell.get, SendCell.get_mut, h, Except.map]

/-- Witness for C9 at concrete inputs. -/
theorem c9_delegation_witness :
    SendCell.as_ref "i32" 1 (SendCell.new 0 (4 : Nat))
      = SendCell.get "i32" 1 (SendCell.new 0 (4 : Nat)) ∧
    SendCell.deref "i32" 1 (SendCell.new 0 (4 : Nat))
      = SendCell.get "i32" 1 (SendCell.new 0 (4 : Nat)) ∧
    SendCell.as_mut "i32" 1 (SendCell.new 0 (4 : Nat))
      = SendCell.get_mut "i32" 1 (SendCell.new 0 (4 : Nat)) ∧
    SendCell.deref_mut "i32" 1 (SendCell.new 0 (4 : Nat))
      = SendCell.get_mut "i32" 1 (SendCell.new 0 (4 : Nat)) ∧
    SendCell.fmt (fun n : Nat => toString n) "i32" 1 (SendCell.new 0 (4 : Nat))
      = (SendCell.get "i32" 1 (SendCell.new 0 (4 : Nat))).map (fun n => toString n) ∧
    ((SendCell.new 0 (4 : Nat)).thread_id ≠ 1 →
      SendCell.as_ref "i32" 1 (SendCell.new 0 (4 : Nat))
        = .error (.affinityViolation
            (some ("Access SendCell<" ++ "i32" ++ "> from incorrect thread"))) ∧
      SendCell.deref "i32" 1 (SendCell.new 0 (4 : Nat))
        = .error (.affinityViolation
            (some ("Access SendCell<" ++ "i32" ++ "> from incorrect thread"))) ∧
      SendCell.as_mut "i32" 1 (SendCell.new 0 (4 : Nat))
        = .error (.affinityViolation
            (some ("Access SendCell<" ++ "i32" ++ "> from incorrect thread"))) ∧
      SendCell.deref_mut "i32" 1 (SendCell.new 0 (4 : Nat))
        = .error (.affinityViolation
            (some ("Access SendCell<" ++ "i32" ++ "> from incorrect thread"))) ∧
      SendCell.fmt (fun n : Nat => toString n) "i32" 1 (SendCell.new 0 (4 : Nat))
        = .error (.affinityViolation
            (some ("Access SendCell<" ++ "i32" ++ "> from incorrect thread")))) :=
  c9_delegation Nat (fun n => toString n) "i32" 1 (SendCell.new 0 4)

/-- Claim C10 (implicit): `Drop for SendCell` decides whether to assert solely
from the payload type's drop requirement, never from payload presence: the
emptied shell left behind by `into_future` (and likewise by
`into_unchecked_inner`) still fails with an affinity violation when dropped on
a foreign thread under a needs-drop payload type, and the drop result is
unchanged under any payload contents. -/
theorem c10_empty_shell_drop (T : Type) (typeName : String) (other : ThreadId)
    (c : SendCell T) (u : UnsafeSendCell T) (h : c.inner = some u)
    (hne : other ≠ c.thread_id) :
    SendCell.into_future c
      = .ok ({ inner := u, thread_id := c.thread_id },
          { inner := none, thread_id := c.thread_id }) ∧
    SendCell.drop typeName true other
        ({ inner := none, thread_id := c.thread_id } : SendCell T)
      = .error (.affinityViolation
          (some ("Drop SendCell<" ++ typeName ++ "> from incorrect thread"))) ∧
    (∀ (i j : Option (UnsafeSendCell T)) (nd : Bool) (current : ThreadId),
      SendCell.drop typeName nd current
          ({ inner := i, thread_id := c.thread_id } : SendCell T)
        = SendCell.drop typeName nd current
            { inner := j, thread_id := c.thread_id }) := by
  have h2 : c.thread_id ≠ other := hne.symm
  refine ⟨?_, ?_, ?_⟩
  · simp [SendCell.into_future, h]
  · simp [SendCell.drop, h2]
  · intro i j nd current
    simp [SendCell.drop]

/-- Witness for C10 at concrete inputs. -/
theorem c10_empty_shell_drop_witness :
    SendCell.into_future (SendCell.new 0 (3 : Nat))
      = .ok (⟨⟨3⟩, 0⟩, ⟨none, 0⟩) ∧
    SendCell.drop "String" true 1 ({ inner := none, thread_id := 0 } : SendCell Nat)
      = .error (.affinityViolation
          (some ("Drop SendCell<" ++ "String" ++ "> from incorrect thread"))) ∧
    (∀ (i j : Option (UnsafeSendCell Nat)) (nd : Bool) (current : ThreadId),
      SendCell.drop "String" nd current
          ({ inner := i, thread_id := 0 } : SendCell Nat)
        = SendCell.drop "String" nd current { inner := j, thread_id := 0 }) :=
  c10_empty_shell_drop Nat "String" 1 (SendCell.new 0 3) ⟨3⟩ rfl (by decide)
